import Mathlib

/-!
A verification development for the scan-site route of the
`bardnative-scaner` repository.

The definitions below are a shallow embedding of
`src/app/api/scan-site/route.ts`.  JavaScript strings are modelled as Lean
`String`s (ASCII is assumed for case conversion and for the regex classes
`\\s` and `\\d`), integer-valued JavaScript numbers as `Nat`/`Int`, and the
floating-point confidence values as exact rationals.  The network transport
(axios), the HTML document tree (cheerio) and the external moderation
classifier (OpenAI) are outside the specified core; they enter the model as
explicit oracle functions carried in a `ScanEnv`.
-/

namespace BardScan

/-- The ASCII members of the JS regex class `\\s` (space, tab, line feed,
carriage return, vertical tab, form feed). -/
def jsIsSpace (c : Char) : Bool :=
  c == ' ' || c == '\t' || c == '\n' || c == '\r' || c == '\x0b' || c == '\x0c'

/-- JS `s.toLowerCase()` (ASCII letters). -/
def jsToLower (s : String) : String := String.mk (s.data.map Char.toLower)

/-- Predicate `leadsWith pat s`: `pat` is a leading segment of `s` (on char lists). -/
def leadsWith : List Char -> List Char -> Bool
  | [], _ => true
  | _ :: _, [] => false
  | p :: ps, c :: cs => p == c && leadsWith ps cs

/-- Predicate `hasSub pat s`: `pat` occurs contiguously somewhere in `s`. -/
def hasSub (pat : List Char) : List Char -> Bool
  | [] => leadsWith pat []
  | c :: cs => leadsWith pat (c :: cs) || hasSub pat cs

/-- JS `s.includes(pat)`. -/
def jsIncludes (s pat : String) : Bool := hasSub pat.data s.data

/-- JS `s.endsWith(pat)`. -/
def jsEndsWith (s pat : String) : Bool := leadsWith pat.data.reverse s.data.reverse

/-- One pass of `replace(/\\s+/g, " ")`: `prevSpace` records whether the
previous character belonged to a whitespace run that was already replaced
by a single space. -/
def collapseWsAux : Bool -> List Char -> List Char
  | _, [] => []
  | prevSpace, c :: cs =>
    if jsIsSpace c then
      if prevSpace then collapseWsAux true cs
      else ' ' :: collapseWsAux true cs
    else c :: collapseWsAux false cs

/-- JS `s.replace(/\\s+/g, " ")`. -/
def jsCollapseWs (s : String) : String := String.mk (collapseWsAux false s.data)

/-- JS `s.trim()` (ASCII whitespace). -/
def jsTrim (s : String) : String :=
  String.mk (((s.data.dropWhile jsIsSpace).reverse.dropWhile jsIsSpace).reverse)

/-- JS `s.slice(0, n)` for a non-negative bound. -/
def jsSlice (s : String) (n : Nat) : String := String.mk (s.data.take n)

/-- Number of maximal runs of non-whitespace characters; `inTok` records
whether the previous character belonged to the current run. -/
def tokenCountAux : Bool -> List Char -> Nat
  | _, [] => 0
  | inTok, c :: cs =>
    if jsIsSpace c then tokenCountAux false cs
    else (if inTok then 0 else 1) + tokenCountAux true cs

/-- JS `s.trim().split(/\\s+/).length` (route.ts line 226): splitting the
empty string yields `[""]`, so the count is never `0`. -/
def jsWordCount (s : String) : Nat :=
  let t := jsTrim s
  if t = "" then 1 else tokenCountAux false t.data

/-- The JS regex test `/^\\d+$/.test s` on a char list. -/
def regexAllDigits (s : List Char) : Bool :=
  !s.isEmpty && s.all (fun c => c.isDigit)

/-- A parsed URL in the sense of the WHATWG `URL` class, restricted to the
components the route reads.  Well-formed values have a `pathname` starting
with `/`, a `search` that is empty or starts with `?`, a `hash` that is
empty or starts with `#`, and no `#` inside any other component; `href` is
the serialization. -/
structure Url where
  scheme : String
  host : String
  pathname : String
  search : String
  hash : String
deriving DecidableEq, Repr

def Url.href (u : Url) : String :=
  u.scheme ++ "://" ++ u.host ++ u.pathname ++ u.search ++ u.hash

/-- Lower-casing the href (`url.toLowerCase()`) followed by re-parsing: the separator characters
are unaffected by lower-casing, so this acts component-wise. -/
def Url.toLower (u : Url) : Url :=
  { scheme := jsToLower u.scheme, host := jsToLower u.host,
    pathname := jsToLower u.pathname, search := jsToLower u.search,
    hash := jsToLower u.hash }

/-- The `toolKeywords` list of `isLikelyPostUrl` (route.ts lines 92-104);
`isSafeContent` (lines 169-181) repeats the identical list, so the model
shares one copy. -/
def toolKeywords : List String := [
  "download", "torrent", "crack", "keygen", "serial", "hack", "patch", "key", "activation",
  "free-download", "download-free", "free-torrent", "torrent-download",
  "cracked", "crack-download", "crack-free",
  "apk-download", "apk-free", "app-download", "app-free",
  "software-download", "software-free", "free-software",
  "movie-download", "movie-free", "free-movie", "torrent-movie",
  "music-download", "music-free", "free-music", "torrent-music",
  "downloader",
  "video-downloader", "audio-downloader", "mp3-downloader", "mp4-downloader",
  "instagram-downloader", "tiktok-downloader", "youtube-downloader", "facebook-downloader",
  "soundcloud-downloader", "twitch-downloader", "pinterest-downloader"]

/-- The alternation words of the first `obviousCategoryPatterns` regex
(route.ts line 114), in source order, duplicates included. -/
def categoryWords : List String := [
  "category", "tag", "author", "feed", "search", "wp-json", "archive", "tools",
  "tool", "blog", "news", "events", "products", "services", "portfolio", "projects",
  "members", "groups", "forums", "topics", "threads", "comments", "reviews", "testimonials",
  "faq", "support", "help", "docs", "documentation", "tutorials", "guides", "resources",
  "media", "galleries", "photos", "images", "videos", "audio", "music", "files",
  "attachments", "uploads", "admin", "login", "register", "signup", "cart", "checkout",
  "shop", "store", "pricing", "plans", "packages", "deals", "offers", "promotions",
  "campaigns", "banners", "ads", "advertising", "sponsors", "partners", "affiliates", "referrals",
  "tracking", "stats", "statistics", "analytics", "reports", "dashboards", "control", "control-panel",
  "settings", "preferences", "profile", "account", "user", "users", "members", "dashboard",
  "admin-panel", "wp-admin", "wp-content", "wp-includes", "cgi-bin", "bin", "includes", "inc",
  "lib", "libraries", "modules", "plugins", "themes", "templates", "layouts", "designs",
  "styles", "css", "js", "javascript", "scripts", "api", "json", "xml",
  "rss", "atom", "sitemap", "robots", "favicon", "apple-touch-icon", "manifest", "browserconfig",
  "humans", "readme", "license", "copyright", "trademark", "patent", "privacy-policy", "terms-of-service",
  "tos", "eula", "end-user-license-agreement", "disclaimer", "refund-policy", "return-policy", "shipping-policy", "delivery-policy",
  "warranty", "guarantee", "money-back", "moneyback", "satisfaction", "security", "ssl", "tls",
  "encryption", "certificate", "cert", "keys", "key", "token", "access", "password",
  "pass", "login", "signin", "sign-in", "sign_up", "signup", "register", "registration",
  "subscribe", "subscription", "newsletter", "mailing", "mail", "email", "e-mail", "contact-us",
  "contactus", "contact_form", "form", "feedback", "support", "help", "ticket", "issue",
  "bug", "report", "complaint", "claim", "request", "inquiry", "question", "faq",
  "frequently-asked-questions", "about-us", "aboutus", "about", "company", "team", "staff", "employees",
  "careers", "jobs", "employment", "work", "hire", "recruitment", "apply", "application",
  "resume", "cv", "portfolio", "projects", "services", "solutions", "products", "features",
  "benefits", "advantages", "pros", "cons", "comparison", "vs", "versus", "alternative",
  "alternatives", "review", "reviews", "rating", "ratings", "testimonials", "testimony", "testimonial",
  "recommendation", "recommendations", "endorsement", "endorsements", "praise", "praises", "award", "awards",
  "certification", "certifications", "license", "licenses", "accreditation", "accreditations", "membership", "memberships",
  "subscription", "subscriptions", "pricing", "price", "cost", "fee", "fees", "charge",
  "charges", "payment", "payments", "billing", "invoice", "receipt", "order", "orders",
  "purchase", "purchases", "buy", "sell", "sale", "sales", "transaction", "transactions",
  "deal", "deals", "offer", "offers", "discount", "discounts", "coupon", "coupons",
  "promo", "promos", "promotion", "promotions", "campaign", "campaigns", "marketing", "ad",
  "ads", "advertisement", "advertisements", "banner", "banners", "sponsor", "sponsors", "partner",
  "partners", "affiliate", "affiliates", "referral", "referrals", "tracking", "track", "analytics",
  "stats", "statistics", "report", "reports", "dashboard", "dashboards", "control", "controls",
  "setting", "settings", "preference", "preferences", "profile", "profiles", "account", "accounts",
  "user", "users", "member", "members", "dashboard", "admin", "signin", "sign",
  "apply", "award", "benefit", "cart", "certificate", "charge", "checkout", "claim",
  "comment", "compare", "complaint", "compliance", "confirm", "confirmation", "contact", "content",
  "contract", "contribute", "contributor", "control", "copyright", "cost", "coupon", "create",
  "credit", "css", "currency", "current", "custom", "customer", "customize", "cv",
  "data", "database", "date", "day", "deactivate", "deal", "debug", "default",
  "delete", "deliver", "delivery", "demo", "department", "deploy", "deposit", "design",
  "destroy", "detail", "developer", "development", "device", "diagnostic", "diagram", "dialog",
  "dictionary", "difference", "directory", "disable", "discuss", "discussion", "disk", "display",
  "document", "documentation", "domain", "donate", "donation", "download", "draft", "edit",
  "editor", "effect", "email", "employee", "employment", "enable", "encrypt", "encryption",
  "end", "engine", "enterprise", "entry", "environment", "error", "event", "example",
  "exchange", "execute", "exit", "experience", "export", "external", "factory", "faq",
  "feature", "feed", "feedback", "file", "filter", "find", "fix", "flash",
  "folder", "font", "footer", "form", "format", "forum", "forward", "framework",
  "free", "frequency", "friend", "ftp", "function", "fund", "gallery", "game",
  "gateway", "general", "generate", "generator", "get", "gift", "global", "goal",
  "google", "govern", "governance", "group", "guide", "gzip", "header", "help",
  "history", "home", "host", "hosting", "hour", "html", "icon", "id",
  "idea", "identify", "identity", "image", "import", "inbox", "index", "industry",
  "info", "information", "input", "insert", "install", "instance", "institute", "instruction",
  "instrument", "insurance", "integration", "interface", "internet", "interval", "intro", "introduct",
  "inventory", "invite", "invoice", "ip", "issue", "item", "java", "javascript",
  "job", "join", "journal", "js", "json", "jump", "key", "keyboard",
  "keyword", "label", "language", "launch", "law", "layer", "layout", "leader",
  "lead", "learn", "legal", "level", "license", "limit", "line", "link",
  "list", "load", "local", "location", "lock", "log", "login", "logo",
  "logout", "logotype", "main", "manage", "manager", "manual", "map", "market",
  "master", "match", "max", "maximum", "media", "member", "memory", "menu",
  "merge", "message", "meta", "metadata", "method", "min", "minimum", "minute",
  "mirror", "mobile", "mode", "model", "module", "monitor", "month", "more",
  "move", "multi", "music", "name", "navigate", "navigation", "network", "new",
  "news", "newsletter", "next", "no", "node", "note", "notification", "notify",
  "number", "object", "offer", "office", "offline", "offset", "online", "open",
  "operation", "option", "order", "organization", "organize", "origin", "output", "overview",
  "owner", "package", "page", "pagination", "panel", "paper", "paragraph", "parent",
  "part", "partner", "party", "pass", "password", "paste", "patch", "path",
  "payment", "pdf", "peer", "pending", "people", "percent", "period", "permission",
  "permit", "person", "personal", "phone", "photo", "php", "physical", "pin",
  "ping", "pixel", "plan", "platform", "play", "plugin", "policy", "poll",
  "pop", "popular", "popup", "portal", "post", "power", "preference", "premium",
  "present", "presentation", "preview", "previous", "price", "primary", "print", "privacy",
  "private", "process", "processor", "product", "production", "profile", "program", "progress",
  "project", "promo", "promotion", "protocol", "provider", "proxy", "public", "publish",
  "pull", "purchase", "push", "quality", "quantity", "query", "question", "queue",
  "quick", "quote", "radio", "random", "range", "rank", "rate", "rating",
  "read", "reader", "reading", "ready", "real", "rebuild", "receive", "recent",
  "recommend", "record", "recover", "recovery", "recruit", "recruitment", "redirect", "reduce",
  "reference", "refund", "refuse", "regenerate", "region", "register", "registration", "regular",
  "reject", "relation", "relationship", "release", "reload", "remove", "rename", "render",
  "renew", "repair", "repeat", "replace", "reply", "report", "repository", "request",
  "require", "requirement", "rescue", "research", "reset", "resize", "resolution", "resolve",
  "resource", "response", "restore", "result", "resume", "retire", "return", "reverse",
  "review", "revoke", "right", "role", "root", "route", "router", "rule",
  "run", "safe", "sale", "sample", "save", "scale", "scan", "schedule",
  "schema", "scope", "score", "screen", "script", "scroll", "search", "second",
  "section", "security", "select", "self", "sell", "send", "sent", "sequence",
  "serial", "server", "service", "session", "set", "setting", "setup", "share",
  "shell", "shift", "shop", "show", "shutdown", "sign", "signal", "signature",
  "signup", "sim", "simulation", "single", "site", "size", "skill", "slide",
  "slot", "sms", "social", "software", "solution", "sort", "source", "space",
  "spam", "spec", "special", "specific", "specification", "speed", "spell", "spelling",
  "split", "sponsor", "sport", "sql", "src", "ssl", "staff", "stage",
  "standard", "start", "state", "static", "station", "statistic", "status", "stop",
  "storage", "store", "stream", "string", "structure", "style", "stylesheet", "sub",
  "subject", "submit", "subscribe", "subscription", "subscript", "success", "suggest", "summary",
  "support", "suspend", "swap", "switch", "symbol", "sync", "synchronize", "syntax",
  "system", "tab", "table", "tag", "target", "task", "team", "tech",
  "tele", "telephone", "template", "term", "terminal", "test", "text", "theme",
  "thread", "time", "tip", "title", "tls", "to", "today", "toggle",
  "token", "tool", "top", "topic", "total", "tour", "track", "trade",
  "traffic", "transaction", "transfer", "transform", "transition", "translate", "transport", "trash",
  "tree", "trigger", "type", "ui", "unban", "undo", "uninstall", "union",
  "unit", "unlimit", "unlock", "unmark", "unpin", "unpublish", "unquote", "unregister",
  "unrestrict", "unsubscribe", "unwatch", "update", "upgrade", "upload", "url", "usage",
  "use", "user", "username", "utility", "validate", "validation", "value", "variable",
  "variant", "version", "video", "view", "viewer", "virtual", "virus", "visit",
  "visitor", "volume", "vote", "vpn", "watch", "web", "website", "week",
  "welcome", "widget", "wifi", "wiki", "window", "wireless", "word", "work",
  "worker", "workflow", "workplace", "workspace", "world", "write", "writer", "writing",
  "www", "xml", "year", "yes", "zip"]

/-- The ten decimal digit characters (the regex class `\\d`). -/
def digitChars : List Char := ['0', '1', '2', '3', '4', '5', '6', '7', '8', '9']

/-- The test `obviousCategoryPatterns.some (pattern => pattern.test cleanUrl)`
(route.ts lines 113-120): the first pattern matches iff `cleanUrl`
contains `/` immediately followed by one of the alternation words, the
second (`/\\/page\\/\\d+/`) iff it contains `/page/` followed by a digit,
and the third (`/\\/feed$/`) iff it ends with `/feed`. -/
def obviousCategoryMatch (cleanUrl : String) : Bool :=
  categoryWords.any (fun w => jsIncludes cleanUrl ("/" ++ w))
  || digitChars.any (fun d => jsIncludes cleanUrl ("/page/" ++ String.mk [d]))
  || jsEndsWith cleanUrl "/feed"

/-- The `cleanUrl` binding (route.ts line 82), splitting the lower-cased
href at the first hash character and keeping the head: the serialization
without the fragment. -/
def cleanUrlOf (url : Url) : String :=
  let u := url.toLower
  u.scheme ++ "://" ++ u.host ++ u.pathname ++ u.search

/-- JS `s.split("/")` on char lists: separator occurrences delimit the
(possibly empty) fields; splitting the empty string yields `[[]]`. -/
def splitSlash : List Char -> List (List Char)
  | [] => [[]]
  | c :: cs =>
    if c == '/' then [] :: splitSlash cs
    else
      match splitSlash cs with
      | [] => [[c]]
      | r :: rs => (c :: r) :: rs

/-- The body of `isLikelyPostUrl` after fragment rejection, as a function
of the lower-cased `pathname` and of the fragment-stripped lower-cased
URL.  Path segments are char lists; the `segments` binding of the source
(line 79) is inlined at its use site, and the `secondLastSegment` binding
(line 143) is dead code and is omitted. -/
def postUrlCore (path cleanUrl : String) : Bool :=
  if toolKeywords.any (fun kw => jsIncludes path kw) then true
  else if obviousCategoryMatch cleanUrl then false
  else
    match ((splitSlash path.data).filter (fun s => !s.isEmpty)).getLast? with
    | none => false
    | some lastSegment =>
      if decide (4 < lastSegment.length) && !regexAllDigits lastSegment
          && !(lastSegment == "page".data || lastSegment == "category".data || lastSegment == "tag".data) then
        true
      else if jsEndsWith path "/" && decide (4 < lastSegment.length)
          && !regexAllDigits lastSegment then
        true
      else false

/-- The URL classifier `isLikelyPostUrl` (route.ts lines 75-153): reject fragment URLs
outright, otherwise decide on the lower-cased path and fragment-stripped
URL. -/
def isLikelyPostUrl (url : Url) : Bool :=
  if url.toLower.hash != "" then false
  else postUrlCore url.toLower.pathname (cleanUrlOf url)

/-- The `REQUIRED_PAGES` list (route.ts line 15). -/
def REQUIRED_PAGES : List String := ["about", "contact", "privacy", "terms", "disclaimer"]

structure RequiredPages where
  found : List String
  missing : List String
deriving DecidableEq, Repr

/-- The function `checkRequiredPages` (route.ts lines 155-164): the loop
pushing each required word to `found` or `missing` equals the two
order-preserving filters; a word is found iff the lower-cased href of
some link contains it. -/
def checkRequiredPages (allLinks : List Url) : RequiredPages :=
  { found := REQUIRED_PAGES.filter
      (fun page => allLinks.any (fun l => jsIncludes (jsToLower l.href) page)),
    missing := REQUIRED_PAGES.filter
      (fun page => !allLinks.any (fun l => jsIncludes (jsToLower l.href) page)) }

/-- The `safeKeywords` list (route.ts lines 188-192). -/
def safeKeywords : List String := [
  "how to", "tutorial", "guide", "tips", "review", "best", "top",
  "education", "learning", "news", "updates", "opinion", "analysis",
  "recipe", "cooking", "travel", "lifestyle", "fitness", "health"]

/-- The `dangerKeywords` list (route.ts lines 194-198). -/
def dangerKeywords : List String := [
  "casino", "betting", "gamble", "porn", "sex", "scam", "fake download",
  "lottery", "win money", "get rich", "miracle cure", "hack", "crack",
  "torrent", "free iphone", "make money fast", "hate speech"]

/-- The pre-filter `isSafeContent` (route.ts lines 167-216): the tool-keyword check on
the URL path runs first and forces analysis; then danger keywords force
analysis; then safe keywords allow the skip; otherwise analyze. -/
def isSafeContent (text urlPath : String) : Bool :=
  if toolKeywords.any (fun kw => jsIncludes (jsToLower urlPath) kw) then false
  else
    let lower := jsToLower text
    if dangerKeywords.any (fun kw => jsIncludes lower kw) then false
    else if safeKeywords.any (fun kw => jsIncludes lower kw) then true
    else false

/-- A policy violation; `vtype` is the tag the source calls `type`, and
the floating-point confidence is modelled as an exact rational. -/
structure Violation where
  vtype : String
  excerpt : String
  confidence : ℚ
deriving DecidableEq, Repr

/-- The `{violations, summary, suggestions}` verdict shape. -/
structure AIVerdict where
  violations : List Violation
  summary : String
  suggestions : List String
deriving DecidableEq, Repr

/-- The external-classifier boundary of `analyzeTextWithAI`: `.ok v` is a
successfully parsed JSON verdict; `.error msg` collapses the failure paths
of the source (thrown API error, empty content, no JSON found), each of
which yields an empty-violations verdict whose summary is the diagnostic
message `msg`. -/
def ModOracle : Type := String -> Url -> String -> Except String AIVerdict

/-- The moderation adapter `analyzeTextWithAI` (route.ts lines 377-509).  The second component
records whether the external classifier was called.  On a parsed verdict
the code keeps only violations with confidence above `0.8` and replaces a
falsy (empty) summary by a default; absent `suggestions` are modelled by
the oracle supplying `[]`. -/
def analyzeTextWithAI (callAI : ModOracle) (text : String) (url : Url) (context : String) :
    AIVerdict × Bool :=
  if isSafeContent text url.pathname then
    ({ violations := [], summary := "Safe content", suggestions := [] }, false)
  else
    match callAI text url context with
    | .error msg => ({ violations := [], summary := msg, suggestions := [] }, true)
    | .ok parsed =>
      ({ violations := parsed.violations.filter (fun v => decide ((0.8 : ℚ) < v.confidence)),
         summary := if parsed.summary = "" then "Analysis complete" else parsed.summary,
         suggestions := parsed.suggestions }, true)

/-- The `MIN_CONTENT_WORDS` threshold (route.ts line 16). -/
def MIN_CONTENT_WORDS : Nat := 300

/-- The results of the cheerio queries that page analysis performs; the
HTML parser is a black box, so these arrive as oracle data per fetched
page.  `contentRaw` is the text of `$("main, article, .post-content,
.entry-content, .content, .post-body, body")`, `containerRaw` the same
without the `body` fallback (the post-context selector, line 623),
`bodyRaw` the text of `$("body")`, `titleRaw`/`h1Raw` the title and first
H1 text, `metaDescAttr` the `content` attribute of
the description meta tag (`none` when absent), `metaCount` the number of
such meta tags and `hNCount` the heading-tag counts. -/
structure PageData where
  contentRaw : String
  containerRaw : String
  bodyRaw : String
  titleRaw : String
  h1Raw : String
  metaDescAttr : Option String
  metaCount : Nat
  h1Count : Nat
  h2Count : Nat
  h3Count : Nat
deriving DecidableEq, Repr

structure QualityReport where
  issues : List String
  wordCount : Nat
  hasProperHeadings : Bool
deriving DecidableEq, Repr

/-- The quality analyzer `analyzeContentQuality` (route.ts lines 219-244): word count over the
content region, a thin-content issue below `MIN_CONTENT_WORDS`, and the
heading-hierarchy check (at least one H1 plus at least one H2 or H3). -/
def analyzeContentQuality (d : PageData) : QualityReport :=
  let wordCount := jsWordCount d.contentRaw
  let thin : List String :=
    if wordCount < MIN_CONTENT_WORDS then
      ["Thin content (" ++ toString wordCount ++ " words < " ++ toString MIN_CONTENT_WORDS ++ ")"]
    else []
  let hasProperHeadings := decide (0 < d.h1Count) && (decide (0 < d.h2Count) || decide (0 < d.h3Count))
  let headingIssue : List String :=
    if hasProperHeadings then [] else ["Missing proper heading hierarchy (H1, H2, H3)"]
  { issues := thin ++ headingIssue, wordCount := wordCount, hasProperHeadings := hasProperHeadings }

/-- Normalization used by the duplicate detector (route.ts lines 249,
251): lower-case, collapse whitespace, trim. -/
def normalizeJs (s : String) : String := jsTrim (jsCollapseWs (jsToLower s))

/-- The inner loop of `checkForDuplicateContent`: the number of positions
`i < minLength` at which the two normalized texts agree. -/
def countMatches (a b : String) : Nat :=
  (a.data.zip b.data).countP (fun p => p.1 == p.2)

/-- The duplicate detector `checkForDuplicateContent` (route.ts lines 247-267).  The JS test
`matches / minLength > 0.8` on doubles is modelled exactly as the rational
comparison `4 * minLength < 5 * matches`. -/
def checkForDuplicateContent (content : String) (existingContent : List String) : Bool :=
  let normalizedContent := normalizeJs content
  existingContent.any (fun existing =>
    let normalizedExisting := normalizeJs existing
    let minLength := min normalizedContent.length normalizedExisting.length
    if 100 < minLength then
      decide (4 * minLength < 5 * countMatches normalizedContent normalizedExisting)
    else false)

/-- The `MAX_PAGES` budget (route.ts line 13). -/
def MAX_PAGES : Nat := 500

/-- Insertion into a JS `Set` viewed as a duplicate-free list in insertion
order: the first occurrence is kept. -/
def jsInsert (acc : List Url) (l : Url) : List Url :=
  if l ∈ acc then acc else acc ++ [l]

/-- JS `new Set(list)` (followed by `Array.from`). -/
def jsDedup (links : List Url) : List Url := links.foldl jsInsert []

/-- One expansion task of the phase-2 crawl (route.ts lines 538-543):
guard on the current frontier size before fetching (`if (crawled.size >
MAX_PAGES) return`) and, once admitted, merge every link extracted from
the fetched page; a failed fetch contributes nothing. -/
def crawlStep (fetch : String -> String) (extract : String -> String -> List Url)
    (targetUrl : String) (acc : List Url) (link : Url) : List Url :=
  if MAX_PAGES < acc.length then acc
  else
    let html := fetch link.href
    if html = "" then acc
    else (extract html targetUrl).foldl jsInsert acc

/-- The phase-2 crawl expansion (route.ts lines 536-547): the frontier is
seeded with the deduplicated homepage links and the first 20 of them are
expanded by `crawlStep`; the concurrent tasks are sequentialized in
submission order. -/
def crawlExpand (fetch : String -> String) (extract : String -> String -> List Url)
    (targetUrl : String) (allLinks : List Url) : List Url :=
  (allLinks.take 20).foldl (crawlStep fetch extract targetUrl) (jsDedup allLinks)

structure PageFinding where
  url : String
  violations : List Violation
  summary : String
  suggestions : List String
  qualityIssues : Option (List String)
deriving DecidableEq, Repr

/-- The two shared mutable accumulators of the batch loop:
`allContentHashes` (route.ts line 596) and `pagesWithIssues` (line 599). -/
structure PostState where
  allContentHashes : List String
  pagesWithIssues : List PageFinding
deriving DecidableEq, Repr

/-- The oracle bundle for one scan: the fetch transport (`""` encodes a
failed fetch, exactly as `fetchHTML` returns), the link extractor
(`extractLinks`, which queries the document tree), the external
moderation classifier, the per-page cheerio extraction results, and the
rule-based `detectClearViolations` (lines 270-373), which also operates
on the document tree and is therefore part of the black-box page oracle;
its two inputs are the page html and url. -/
structure ScanEnv where
  fetch : String -> String
  extract : String -> String -> List Url
  callAI : ModOracle
  pageData : String -> String -> PageData
  ruleViolations : String -> String -> List Violation

/-- The `fullContext` template shared by the homepage (lines 574-579) and
the posts (lines 628-633), before `.slice(0, 16000)`. -/
def contextTemplate (title h1 metaDesc bodyText : String) : String :=
  "\nTITLE: " ++ title ++ "\nH1: " ++ h1 ++ "\nMETA: " ++ metaDesc ++
    "\nCONTENT: " ++ bodyText ++ "\n"

/-- The truncated context block a post is judged on (route.ts lines
620-633): trimmed title and H1, meta description, and the
whitespace-collapsed trimmed container text. -/
def postContext (d : PageData) : String :=
  jsSlice (contextTemplate (jsTrim d.titleRaw) (jsTrim d.h1Raw)
    (d.metaDescAttr.getD "") (jsTrim (jsCollapseWs d.containerRaw))) 16000

/-- The fixed finding pushed for a duplicate post (route.ts lines 644-653). -/
def duplicateFinding (p : Url) : PageFinding :=
  { url := p.href,
    violations := [{ vtype := "DuplicateContent",
                     excerpt := "Content appears to be duplicate or highly similar to other pages",
                     confidence := 0.9 }],
    summary := "Duplicate content detected",
    suggestions := ["Rewrite content to be unique", "Use canonical tags if necessary"],
    qualityIssues := none }

/-- Merging rule-based violations into an AI verdict (route.ts lines
586-593 for the homepage, 665-672 for a post); the inner guard repeated on
`clear.length` in the source is redundant and folded into the outer one. -/
def mergeClearViolations (ai : AIVerdict) (clear : List Violation) : AIVerdict :=
  if 0 < clear.length then
    { ai with
      violations := ai.violations ++ clear,
      summary := if ai.summary = "Safe content" then "Policy violations detected" else ai.summary }
  else ai

/-- The summary-recombination block of the post analysis (route.ts lines
690-716). -/
def finalSummary (ai : AIVerdict) (qualityIssues : List String) : String :=
  let hasViolations := decide (0 < ai.violations.length)
  let hasSuggestions := decide (0 < ai.suggestions.length)
  let hasSummaryViolation := jsIncludes (jsToLower ai.summary) "violation"
  let base : List String :=
    if hasSummaryViolation then [ai.summary]
    else if hasViolations then
      if ai.summary != "" && !jsIncludes (jsToLower ai.summary) "no clear violations" then
        [ai.summary]
      else if ai.summary != "" && jsIncludes (jsToLower ai.summary) "no clear violations" then
        [toString ai.violations.length ++ " violation(s) detected."]
      else [toString ai.violations.length ++ " violation(s) detected."]
    else if hasSuggestions then
      ["Potential issues found (AI Suggestions: " ++ String.intercalate ", " ai.suggestions ++ ")"]
    else []
  let withQuality :=
    if 0 < qualityIssues.length then
      base ++ ["Quality Issues: " ++ String.intercalate ", " qualityIssues]
    else base
  String.intercalate " " withQuality

/-- One post-analysis task of the batch loop (route.ts lines 607-723),
acting on the shared accumulators: fetch, extract, quality-check, build
the context block, skip short contexts, detect duplicates, record the
body text, run moderation plus rule detection, and push a finding when
any signal is present. -/
def processPost (env : ScanEnv) (st : PostState) (p : Url) : PostState :=
  let html := env.fetch p.href
  if html = "" then st
  else
    let d := env.pageData html p.href
    let postQuality := analyzeContentQuality d
    let bodyText := jsTrim (jsCollapseWs d.containerRaw)
    let fullContext := postContext d
    if fullContext.length < 200 then st
    else if checkForDuplicateContent bodyText st.allContentHashes then
      { st with pagesWithIssues := st.pagesWithIssues ++ [duplicateFinding p] }
    else
      let st1 : PostState := { st with allContentHashes := st.allContentHashes ++ [bodyText] }
      let ai := mergeClearViolations
        (analyzeTextWithAI env.callAI fullContext p "Content post analysis").1
        (env.ruleViolations html p.href)
      let hasViolations := decide (0 < ai.violations.length)
      let hasSuggestions := decide (0 < ai.suggestions.length)
      let hasSummaryViolation := jsIncludes (jsToLower ai.summary) "violation"
      let hasQualityIssues := decide (0 < postQuality.issues.length)
      if hasViolations || hasSuggestions || hasSummaryViolation || hasQualityIssues then
        { st1 with pagesWithIssues := st1.pagesWithIssues ++
            [{ url := p.href,
               violations := ai.violations,
               summary := finalSummary ai postQuality.issues,
               suggestions := ai.suggestions,
               qualityIssues := if hasQualityIssues then some postQuality.issues else none }] }
      else st1

/-- The batch driver (route.ts lines 603-728): fixed-size chunks of
concurrent tasks awaited chunk by chunk; chunked sequential processing of
a pure fold equals one left fold in submission order. -/
def runBatches (env : ScanEnv) (posts : List Url) : PostState :=
  posts.foldl (processPost env) { allContentHashes := [], pagesWithIssues := [] }

/-- The scoring block (route.ts lines 741-752).  `Math.round` on an
integral value is the identity and is omitted. -/
def computeScore (totalViolations missingCount homepageIssues totalPosts : Nat)
    (hasMetaTags hasGoodHeaders : Bool) : Int :=
  let s1 : Int := 100 - (totalViolations : Int) * 5
  let s2 := s1 - (missingCount : Int) * 5
  let s3 := s2 - (homepageIssues : Int) * 2
  let s4 := if totalPosts < 20 then s3 - 10 else if totalPosts < 40 then s3 - 5 else s3
  let s5 := if hasMetaTags then s4 else s4 - 3
  let s6 := if hasGoodHeaders then s5 else s5 - 3
  max 0 (min 100 s6)

/-- The tiered post-count deduction as §4.9 of the spec describes it. -/
def tierDeduction (totalPosts : Nat) : Int :=
  if totalPosts < 20 then 10 else if totalPosts < 40 then 5 else 0

/-- The scoring contract in the form the spec states it (§4.9 and claim
C2): 100 minus an order-insensitive sum of the individual deductions,
clamped to `[0, 100]`.  Stated separately from `computeScore` so that the
claim is an equality between the sequential-subtraction form of the code
and the summation form of the spec. -/
def specScore (totalViolations missingCount homepageIssues totalPosts : Nat)
    (hasMetaTags hasGoodHeaders : Bool) : Int :=
  max 0 (min 100 (100 -
    (5 * (totalViolations : Int) + 5 * (missingCount : Int) + 2 * (homepageIssues : Int)
      + tierDeduction totalPosts
      + (if hasMetaTags then 0 else 3) + (if hasGoodHeaders then 0 else 3))))

structure SiteStructure where
  postCount : Nat
  hasMetaTags : Bool
  hasGoodHeaders : Bool
  structureWarnings : List String
deriving DecidableEq, Repr

/-- The serialized scan result (route.ts lines 768-793), without the
`scannedAt` timestamp (real time is outside the model). -/
structure ScanReport where
  url : String
  totalViolations : Nat
  requiredPages : RequiredPages
  siteStructure : SiteStructure
  totalPostsAnalyzed : Nat
  postsWithQualityIssues : Nat
  pagesWithIssues : List PageFinding
  aiSuggestions : List String
  score : Int
  summary : String
deriving DecidableEq, Repr

/-- A scan either fails fatally with an error object and an HTTP status,
or succeeds with a report. -/
inductive ScanOutcome where
  | fatal (error message : String) (status : Nat)
  | ok (report : ScanReport)
deriving DecidableEq, Repr

def scanReport? : ScanOutcome -> Option ScanReport
  | .fatal _ _ _ => none
  | .ok r => some r

/-- The `POST` handler (route.ts lines 512-805), with the request-body
parsing left out.  A homepage fetch returning `""` triggers the `throw`
that the catch block of the handler turns into the
`{error: "Scan failed", message}` response with status 500.  Post URLs
are fragment-stripped (splitting at the hash, modelled as clearing `hash`) and
deduplicated before analysis. -/
def scan (env : ScanEnv) (url : Url) : ScanOutcome :=
  let homepage := env.fetch url.href
  if homepage = "" then .fatal "Scan failed" "Failed to fetch homepage" 500
  else
    let allLinks := env.extract homepage url.href
    let rp := checkRequiredPages allLinks
    let crawled := crawlExpand env.fetch env.extract url.href allLinks
    let uniquePosts := jsDedup ((crawled.filter isLikelyPostUrl).map (fun u => { u with hash := "" }))
    let totalPosts := uniquePosts.length
    let d := env.pageData homepage url.href
    let homepageQuality := analyzeContentQuality d
    let hasMetaTags := decide (0 < d.metaCount)
    let hasGoodHeaders := homepageQuality.hasProperHeadings
    let homepageStructureIssues := homepageQuality.issues
    let homepageContext := jsSlice (contextTemplate (jsTrim d.titleRaw) (jsTrim d.h1Raw)
      (d.metaDescAttr.getD "") (jsSlice (jsCollapseWs d.bodyRaw) 16000)) 16000
    let homepageAI := mergeClearViolations
      (analyzeTextWithAI env.callAI homepageContext url "Homepage content analysis").1
      (env.ruleViolations homepage url.href)
    let final := runBatches env uniquePosts
    let totalViolations :=
      final.pagesWithIssues.foldl (fun acc p => acc + p.violations.length) 0
        + homepageAI.violations.length
    let score := computeScore totalViolations rp.missing.length homepageStructureIssues.length
      totalPosts hasMetaTags hasGoodHeaders
    let aiSuggestions :=
      (homepageAI.suggestions ++ (final.pagesWithIssues.map (fun p => p.suggestions)).flatten)
      ++ (if 0 < rp.missing.length then
            ["Add missing pages: " ++ String.intercalate ", " rp.missing] else [])
      ++ (if 0 < homepageStructureIssues.length then
            ["Fix homepage structure: " ++ String.intercalate ", " homepageStructureIssues] else [])
    let summary :=
      if 0 < totalViolations then
        toString totalViolations ++ " violations found across " ++
          toString final.pagesWithIssues.length ++ " posts."
      else if totalPosts < 20 then
        "Low content (" ++ toString totalPosts ++ " posts)."
      else "✅ Site appears compliant."
    .ok {
      url := url.href,
      totalViolations := totalViolations,
      requiredPages := rp,
      siteStructure := {
        postCount := totalPosts,
        hasMetaTags := hasMetaTags,
        hasGoodHeaders := hasGoodHeaders,
        structureWarnings :=
          (if hasMetaTags then [] else ["Missing meta description"]) ++
          (if hasGoodHeaders then [] else ["Weak header structure"]) ++
          (if totalPosts < 40 then ["Low content volume"] else []) ++
          homepageStructureIssues.map (fun i => "Homepage: " ++ i) },
      totalPostsAnalyzed := uniquePosts.length,
      postsWithQualityIssues := (final.pagesWithIssues.filter (fun p => p.qualityIssues.isSome)).length,
      pagesWithIssues := final.pagesWithIssues,
      aiSuggestions := aiSuggestions.take 15,
      score := score,
      summary := summary }

/-! Concrete inputs used by witnesses and counterexamples. -/

/-- A URL with a descriptive slug and no category-word occurrence in its
serialization (neither host nor path starts a category word after a
slash). -/
def postUrlA : Url := ⟨"https", "qqq.zzz", "/mygoodpost", "", ""⟩

/-- The same URL with a query string that contains `/category`, which the
structural regexes of `isLikelyPostUrl` can see because they test the
whole fragment-stripped URL. -/
def postUrlB : Url := ⟨"https", "qqq.zzz", "/mygoodpost", "?x=/category/y", ""⟩

/-- A second host serving the same path as `postUrlA`. -/
def postUrlC : Url := ⟨"http", "rrr.yyy", "/mygoodpost", "", ""⟩

/-- A page-data record with nothing in it. -/
def emptyPageData : PageData :=
  { contentRaw := "", containerRaw := "", bodyRaw := "", titleRaw := "", h1Raw := "",
    metaDescAttr := none, metaCount := 0, h1Count := 0, h2Count := 0, h3Count := 0 }

/-- An external classifier stub whose verdict records that it was
consulted. -/
def consultedOracle : ModOracle :=
  fun _ _ _ => .ok { violations := [], summary := "External classifier consulted", suggestions := [] }

/-- A URL whose path is a tool keyword. -/
def toolPathUrl : Url := ⟨"https", "qqq.zzz", "/download", "", ""⟩

/-- A URL whose path contains no tool keyword. -/
def recipeUrl : Url := ⟨"https", "qqq.zzz", "/recipes-for-me", "", ""⟩

/-- URL family: `bUrl n` has a pathname of `/` followed by `n` copies of `b`; distinct
indices give distinct URLs. -/
def bUrl (n : Nat) : Url := ⟨"https", "h", String.mk ('/' :: List.replicate n 'b'), "", ""⟩

/-- A list of 501 pairwise distinct URLs. -/
def c6Links : List Url := (List.range 501).map (fun i => bUrl (i + 1))

/-- A seed URL distinct from every member of `c6Links`. -/
def c6Seed : Url := bUrl 502

/-- A homepage whose content region holds two words (under the 300-word
minimum) but whose heading structure and meta description are fine. -/
def thinHomeData : PageData :=
  { contentRaw := "hello there", containerRaw := "", bodyRaw := "a nice guide",
    titleRaw := "home", h1Raw := "hi", metaDescAttr := some "d",
    metaCount := 1, h1Count := 1, h2Count := 1, h3Count := 0 }

/-- The scan target of the C8 counterexample. -/
def c8Url : Url := ⟨"https", "qqq.zzz", "/", "", ""⟩

/-- Forty homepage links: five carrying the required-page words and 35
numbered posts; every path contains the tool keyword `crack`, so the
classifier accepts each one at the keyword override. -/
def c8Links : List Url :=
  [⟨"https", "qqq.zzz", "/crack-about", "", ""⟩,
   ⟨"https", "qqq.zzz", "/crack-contact", "", ""⟩,
   ⟨"https", "qqq.zzz", "/crack-privacy", "", ""⟩,
   ⟨"https", "qqq.zzz", "/crack-terms", "", ""⟩,
   ⟨"https", "qqq.zzz", "/crack-disclaimer", "", ""⟩] ++
  (List.range 35).map (fun i => ⟨"https", "qqq.zzz", "/crackpost" ++ toString i, "", ""⟩)

/-- The C8 environment: the homepage fetch succeeds and yields the 40
links above plus a thin homepage; every other fetch fails, the external
classifier errors out if consulted, and rule detection finds nothing. -/
def c8Env : ScanEnv :=
  { fetch := fun s => if s = "https://qqq.zzz/" then "HOME" else "",
    extract := fun html _ => if html = "HOME" then c8Links else [],
    callAI := fun _ _ _ => .error "AI error",
    pageData := fun html _ => if html = "HOME" then thinHomeData else emptyPageData,
    ruleViolations := fun _ _ => [] }

/-- A post URL for the C9 witness. -/
def c9Post : Url := ⟨"https", "qqq.zzz", "/crack-tool-post", "", ""⟩

/-- Page data whose context block is far shorter than 200 characters. -/
def c9Data : PageData :=
  { contentRaw := "tiny", containerRaw := "x", bodyRaw := "", titleRaw := "t", h1Raw := "h",
    metaDescAttr := none, metaCount := 0, h1Count := 0, h2Count := 0, h3Count := 0 }

/-- A high-confidence rule-based violation. -/
def c9Violation : Violation :=
  { vtype := "Misleading", excerpt := "Clear violation phrase found", confidence := 0.95 }

/-- A post state that already holds content and would match the C9 page
if the duplicate check ran. -/
def c9State : PostState := { allContentHashes := ["previous page text"], pagesWithIssues := [] }

/-- The C9 witness environment: the fetch succeeds, the page data is the
short-context record, and rule detection would report a violation. -/
def c9Env : ScanEnv :=
  { fetch := fun _ => "HTML", extract := fun _ _ => [],
    callAI := fun _ _ _ => .error "AI error",
    pageData := fun _ _ => c9Data, ruleViolations := fun _ _ => [c9Violation] }

/-- The C10 witness environment: the homepage yields one link whose URL
contains `about` mid-string and nothing for the other required words. -/
def c10Env : ScanEnv :=
  { fetch := fun s => if s = "https://qqq.zzz/" then "HOME" else "",
    extract := fun html _ => if html = "HOME" then [⟨"https", "qqq.zzz", "/crack-about-page", "", ""⟩] else [],
    callAI := fun _ _ _ => .error "AI error",
    pageData := fun html _ => if html = "HOME" then thinHomeData else emptyPageData,
    ruleViolations := fun _ _ => [] }

/-- A 101-character string (its normalized form is itself). -/
def longA : String := String.mk (List.replicate 101 'a')

/-!
Theorems.  Each claim of the specification audit has exactly one main
theorem `C<n>_...`; claims whose original statement fails on the code
additionally have a `C<n>_counterexample`, and every theorem with a
hypothesis has a `C<n>_witness` instantiating it on concrete input.
-/

/-- C1: a fragment-free URL whose lower-cased path contains one of the
fixed tool/download keywords is accepted by `isLikelyPostUrl`
unconditionally: the keyword override is evaluated before structural
rejection, so no hypothesis about category patterns is needed. -/
theorem C1_tool_keyword_override (url : Url)
    (hfrag : url.hash = "")
    (hkw : toolKeywords.any (fun kw => jsIncludes (jsToLower url.pathname) kw) = true) :
    isLikelyPostUrl url = true := by
  have e1 : url.toLower.hash = "" := by
    show jsToLower url.hash = ""
    rw [hfrag]; rfl
  unfold isLikelyPostUrl
  rw [e1]
  show postUrlCore (jsToLower url.pathname) (cleanUrlOf url) = true
  unfold postUrlCore
  rw [hkw]
  rfl

set_option maxRecDepth 1000000 in
/-- Witness for C1: `/category/software-download` contains the keywords
`download` and `software-download` and also matches the structural
`/category` pattern, yet is accepted. -/
theorem C1_witness :
    (⟨"https", "qqq.zzz", "/category/software-download", "", ""⟩ : Url).hash = "" ∧
    (toolKeywords.any (fun kw =>
      jsIncludes (jsToLower (⟨"https", "qqq.zzz", "/category/software-download", "", ""⟩ : Url).pathname) kw))
      = true ∧
    obviousCategoryMatch (cleanUrlOf ⟨"https", "qqq.zzz", "/category/software-download", "", ""⟩) = true ∧
    isLikelyPostUrl ⟨"https", "qqq.zzz", "/category/software-download", "", ""⟩ = true :=
  ⟨rfl, by decide, by decide,
    C1_tool_keyword_override ⟨"https", "qqq.zzz", "/category/software-download", "", ""⟩ rfl (by decide)⟩

/-- C2: the score is 100 minus an order-insensitive sum of the fixed
deductions (5 per violation, 5 per missing page, 2 per homepage issue,
the post-count tier of 10 below 20 posts and 5 below 40, 3 for a missing
meta description, 3 for weak headings), clamped to [0, 100]; rounding is
the identity because every deduction is integral. -/
theorem C2_scoring_formula (v m h p : Nat) (mt gh : Bool) :
    computeScore v m h p mt gh = specScore v m h p mt gh := by
  unfold computeScore specScore tierDeduction
  dsimp only
  congr 1
  congr 1
  cases mt <;> cases gh <;> split_ifs <;> ring

/-- C3: a failed homepage fetch makes the whole scan fail with the
`{error: "Scan failed", message: "Failed to fetch homepage"}` response
and status 500; the extract, moderation, page-data and rule oracles are
universally quantified and never reached, so no link extraction, URL
classification, per-page analysis or scoring is performed. -/
theorem C3_homepage_fetch_fatal (fetch : String -> String) (url : Url)
    (hfail : fetch url.href = "")
    (extract : String -> String -> List Url) (callAI : ModOracle)
    (pageData : String -> String -> PageData)
    (ruleViolations : String -> String -> List Violation) :
    scan ⟨fetch, extract, callAI, pageData, ruleViolations⟩ url =
      .fatal "Scan failed" "Failed to fetch homepage" 500 := by
  unfold scan
  simp only [hfail, if_pos rfl]
  exact if_pos trivial

/-- Witness for C3 at a concrete failing fetch. -/
theorem C3_witness :
    (fun _ : String => "") postUrlA.href = "" ∧
    scan ⟨fun _ => "", fun _ _ => [], fun _ _ _ => Except.error "AI error",
      fun _ _ => emptyPageData, fun _ _ => []⟩ postUrlA =
      .fatal "Scan failed" "Failed to fetch homepage" 500 :=
  ⟨rfl, C3_homepage_fetch_fatal (fun _ => "") postUrlA rfl _ _ _ _⟩

set_option maxRecDepth 1000000 in
/-- C4 fails on the code: two fragment-free URLs with identical paths but
different query strings classify differently, because the structural
regexes test the whole fragment-stripped URL and a query containing
`/category` triggers rejection. -/
theorem C4_counterexample :
    postUrlA.pathname = postUrlB.pathname ∧ postUrlA.hash = "" ∧ postUrlB.hash = "" ∧
    isLikelyPostUrl postUrlA = true ∧ isLikelyPostUrl postUrlB = false :=
  ⟨rfl, rfl, rfl, by decide, by decide⟩

/-- C4 amended: the keyword override and the final-segment checks depend
only on the path, but structural rejection tests the full
fragment-stripped URL; two fragment-free URLs with equal paths classify
identically whenever the structural test agrees on their full URLs.
(Agreement is sufficient, not necessary: a path containing a tool
keyword is accepted before the structural test runs, so such URLs
classify identically even where the structural tests disagree.) -/
theorem C4_amended_path_decides (u1 u2 : Url)
    (h1 : u1.hash = "") (h2 : u2.hash = "")
    (hp : u1.pathname = u2.pathname)
    (hc : obviousCategoryMatch (cleanUrlOf u1) = obviousCategoryMatch (cleanUrlOf u2)) :
    isLikelyPostUrl u1 = isLikelyPostUrl u2 := by
  have e1 : u1.toLower.hash = "" := by
    show jsToLower u1.hash = ""
    rw [h1]; rfl
  have e2 : u2.toLower.hash = "" := by
    show jsToLower u2.hash = ""
    rw [h2]; rfl
  have ep : u1.toLower.pathname = u2.toLower.pathname := by
    show jsToLower u1.pathname = jsToLower u2.pathname
    rw [hp]
  unfold isLikelyPostUrl
  rw [e1, e2]
  show postUrlCore u1.toLower.pathname (cleanUrlOf u1)
      = postUrlCore u2.toLower.pathname (cleanUrlOf u2)
  rw [ep]
  unfold postUrlCore
  rw [hc]

set_option maxRecDepth 1000000 in
/-- Witness for the amended C4: same path on two different hosts with the
structural test agreeing. -/
theorem C4_amended_witness :
    postUrlA.hash = "" ∧ postUrlC.hash = "" ∧
    postUrlA.pathname = postUrlC.pathname ∧
    obviousCategoryMatch (cleanUrlOf postUrlA) = obviousCategoryMatch (cleanUrlOf postUrlC) ∧
    isLikelyPostUrl postUrlA = isLikelyPostUrl postUrlC :=
  ⟨rfl, rfl, rfl, by decide,
    C4_amended_path_decides postUrlA postUrlC rfl rfl rfl (by decide)⟩

set_option maxRecDepth 1000000 in
/-- C5 fails on the code: for a text containing the safe keyword `how to`
and no danger keyword, the adapter still consults the external classifier
when the URL path contains a tool keyword (here `/download`), because
`isSafeContent` checks the path first. -/
theorem C5_counterexample :
    safeKeywords.any (fun kw => jsIncludes (jsToLower "how to cook pasta") kw) = true ∧
    dangerKeywords.any (fun kw => jsIncludes (jsToLower "how to cook pasta") kw) = false ∧
    (analyzeTextWithAI consultedOracle "how to cook pasta" toolPathUrl "Content post analysis").2
      = true ∧
    (analyzeTextWithAI consultedOracle "how to cook pasta" toolPathUrl "Content post analysis").1.summary
      ≠ "Safe content" :=
  ⟨by decide, by decide, by decide, by decide⟩

/-- C5 amended: the empty safe verdict and the skipped external call hold
for every text containing a safe keyword and no danger keyword, provided
the URL path contains no tool keyword. -/
theorem C5_amended_safe_short_circuit (callAI : ModOracle) (text : String) (url : Url)
    (context : String)
    (hTool : toolKeywords.any (fun kw => jsIncludes (jsToLower url.pathname) kw) = false)
    (hDanger : dangerKeywords.any (fun kw => jsIncludes (jsToLower text) kw) = false)
    (hSafe : safeKeywords.any (fun kw => jsIncludes (jsToLower text) kw) = true) :
    analyzeTextWithAI callAI text url context =
      ({ violations := [], summary := "Safe content", suggestions := [] }, false) := by
  unfold analyzeTextWithAI isSafeContent
  dsimp only
  rw [hTool, hDanger, hSafe]
  rfl

set_option maxRecDepth 1000000 in
/-- Witness for the amended C5. -/
theorem C5_witness :
    toolKeywords.any (fun kw => jsIncludes (jsToLower recipeUrl.pathname) kw) = false ∧
    dangerKeywords.any (fun kw => jsIncludes (jsToLower "A friendly guide to pasta") kw) = false ∧
    safeKeywords.any (fun kw => jsIncludes (jsToLower "A friendly guide to pasta") kw) = true ∧
    analyzeTextWithAI consultedOracle "A friendly guide to pasta" recipeUrl "Content post analysis" =
      ({ violations := [], summary := "Safe content", suggestions := [] }, false) :=
  ⟨by decide, by decide, by decide,
    C5_amended_safe_short_circuit consultedOracle "A friendly guide to pasta" recipeUrl
      "Content post analysis" (by decide) (by decide) (by decide)⟩

/-- Folding `jsInsert` over fresh, duplicate-free links appends them all. -/
theorem foldl_jsInsert_append (L : List Url) : ∀ acc : List Url,
    L.Nodup → (∀ x ∈ L, x ∉ acc) → L.foldl jsInsert acc = acc ++ L := by
  induction L with
  | nil => intro acc _ _; simp
  | cons a t ih =>
    intro acc hnd hdis
    have ha : a ∉ acc := hdis a (List.mem_cons_self a t)
    have hstep : jsInsert acc a = acc ++ [a] := by unfold jsInsert; rw [if_neg ha]
    rw [List.foldl_cons, hstep, ih (acc ++ [a]) (List.Nodup.of_cons hnd)]
    · simp
    · intro x hx
      simp only [List.mem_append, List.mem_singleton]
      rintro (hmem | heq)
      · exact hdis x (List.mem_cons_of_mem a hx) hmem
      · subst heq
        exact (List.nodup_cons.mp hnd).1 hx

/-- Deduplication of a duplicate-free list is the identity. -/
theorem jsDedup_eq_self {L : List Url} (h : L.Nodup) : jsDedup L = L := by
  unfold jsDedup
  simpa using foldl_jsInsert_append L [] h (by simp)

/-- Every expansion task skips once the accumulated frontier is over the
budget. -/
theorem foldl_crawlStep_guard (fetch : String -> String)
    (extract : String -> String -> List Url)
    (targetUrl : String) (seeds : List Url) : ∀ acc : List Url, MAX_PAGES < acc.length →
    seeds.foldl (crawlStep fetch extract targetUrl) acc = acc := by
  induction seeds with
  | nil => intro acc _; rfl
  | cons a t ih =>
    intro acc h
    rw [List.foldl_cons]
    unfold crawlStep
    rw [if_pos h]
    exact ih acc h

/-- Distinct indices give distinct `bUrl`s. -/
theorem bUrl_inj : Function.Injective bUrl := by
  intro m n h
  have hp : String.mk ('/' :: List.replicate m 'b') = String.mk ('/' :: List.replicate n 'b') :=
    congrArg Url.pathname h
  have hd : '/' :: List.replicate m 'b' = '/' :: List.replicate n 'b' := congrArg String.data hp
  have ht : List.replicate m 'b' = List.replicate n 'b' := (List.cons.injEq _ _ _ _).mp hd |>.2
  simpa using congrArg List.length ht

theorem c6Links_nodup : c6Links.Nodup := by
  unfold c6Links
  exact (List.nodup_range 501).map (fun a b hab => by simpa using bUrl_inj hab)

theorem c6Seed_not_mem : c6Seed ∉ c6Links := by
  intro h
  rcases List.mem_map.mp h with ⟨i, hi, he⟩
  have h1 : i + 1 = 502 := bUrl_inj he
  have h2 : i = 501 := by omega
  subst h2
  exact absurd (List.mem_range.mp hi) (by omega)

/-- C6 fails on the code: a single task admitted while the frontier holds
one URL merges 501 freshly discovered links, growing the frontier to 502,
past the budget of `MAX_PAGES = 500` — links discovered beyond the budget
are added after all. -/
theorem C6_counterexample :
    (crawlExpand (fun _ => "x") (fun _ _ => c6Links) "t" [c6Seed]).length = 502 ∧
    MAX_PAGES < 502 := by
  constructor
  · unfold crawlExpand
    have hd : jsDedup [c6Seed] = [c6Seed] := rfl
    rw [hd]
    show (List.foldl (crawlStep _ _ _) [c6Seed] [c6Seed]).length = 502
    rw [List.foldl_cons]
    unfold crawlStep
    rw [if_neg (by decide)]
    dsimp only
    rw [if_neg (by decide)]
    rw [List.foldl_nil]
    rw [foldl_jsInsert_append c6Links [c6Seed] c6Links_nodup ?_]
    · simp [c6Links]
    · intro x hx
      simp only [List.mem_singleton]
      intro he
      subst he
      exact c6Seed_not_mem hx
  · decide

/-- C6 amended: the budget guard runs before the fetch of each task, so a task
that starts with the frontier already over `MAX_PAGES` adds nothing — in
particular, when the seed frontier itself exceeds the budget no expansion
happens; a task admitted under the budget, however, merges all of its
links, so the frontier can still grow past the budget (see the
counterexample). -/
theorem C6_amended_budget_guard (fetch : String -> String)
    (extract : String -> String -> List Url) (targetUrl : String) (allLinks : List Url)
    (h : MAX_PAGES < (jsDedup allLinks).length) :
    crawlExpand fetch extract targetUrl allLinks = jsDedup allLinks := by
  unfold crawlExpand
  exact foldl_crawlStep_guard fetch extract targetUrl (allLinks.take 20) (jsDedup allLinks) h

/-- Witness for the amended C6: 501 seed links exceed the budget, so the
frontier is exactly the deduplicated seeds. -/
theorem C6_witness :
    MAX_PAGES < (jsDedup c6Links).length ∧
    crawlExpand (fun _ => "x") (fun _ _ => []) "t" c6Links = jsDedup c6Links := by
  have h : MAX_PAGES < (jsDedup c6Links).length := by
    rw [jsDedup_eq_self c6Links_nodup]
    simp [c6Links]
    decide
  exact ⟨h, C6_amended_budget_guard _ _ _ _ h⟩

/-- In the self-comparison every position matches. -/
theorem countP_zip_self (l : List Char) :
    (l.zip l).countP (fun p => p.1 == p.2) = l.length := by
  induction l with
  | nil => rfl
  | cons a t ih => simp [List.countP_cons, ih]

/-- C7: a text whose normalized form is longer than 100 characters is
flagged as a duplicate against a prior list containing the same text, and
no candidate is flagged against priors that differ at every position of
the overlapping prefix of the normalized forms. -/
theorem C7_duplicate_detector (content : String) (existing : List String) :
    (100 < (normalizeJs content).length → content ∈ existing →
      checkForDuplicateContent content existing = true) ∧
    ((∀ e ∈ existing, ∀ q ∈ (normalizeJs content).data.zip (normalizeJs e).data, q.1 ≠ q.2) →
      checkForDuplicateContent content existing = false) := by
  constructor
  · intro hlen hmem
    unfold checkForDuplicateContent
    refine List.any_eq_true.mpr ⟨content, hmem, ?_⟩
    dsimp only
    rw [Nat.min_self, if_pos hlen]
    have hc : countMatches (normalizeJs content) (normalizeJs content)
        = (normalizeJs content).length := by
      unfold countMatches
      rw [countP_zip_self]
      rfl
    rw [hc]
    simp only [decide_eq_true_eq]
    omega
  · intro hall
    unfold checkForDuplicateContent
    rw [List.any_eq_false]
    intro e he
    dsimp only
    split
    · have hm : countMatches (normalizeJs content) (normalizeJs e) = 0 := by
        unfold countMatches
        rw [List.countP_eq_zero]
        intro q hq
        simpa using hall e he q hq
      rw [hm]
      simp
    · simp

/-- Witness for C7: 101 `a`s against themselves flag as duplicate, and
`abcabc` against `xyzxyz` (different at every position) does not. -/
theorem C7_witness :
    (100 < (normalizeJs longA).length ∧ longA ∈ [longA] ∧
      checkForDuplicateContent longA [longA] = true) ∧
    ((∀ e ∈ ["xyzxyz"], ∀ q ∈ (normalizeJs "abcabc").data.zip (normalizeJs e).data, q.1 ≠ q.2) ∧
      checkForDuplicateContent "abcabc" ["xyzxyz"] = false) :=
  ⟨⟨by decide, by decide, (C7_duplicate_detector longA [longA]).1 (by decide) (by decide)⟩,
   ⟨by decide, (C7_duplicate_detector "abcabc" ["xyzxyz"]).2 (by decide)⟩⟩

set_option maxRecDepth 1000000 in
/-- C8 fails on the code: a scan with zero violations, no missing pages,
40 classified posts, a meta description and good headers, but a homepage
content region of two words, scores 98 — the thin-content structure issue
deducts 2, so the score does depend on the homepage word count. -/
theorem C8_counterexample :
    scan c8Env c8Url = .ok {
      url := "https://qqq.zzz/",
      totalViolations := 0,
      requiredPages := { found := ["about", "contact", "privacy", "terms", "disclaimer"],
                         missing := [] },
      siteStructure := { postCount := 40,
                         hasMetaTags := true,
                         hasGoodHeaders := true,
                         structureWarnings := ["Homepage: Thin content (2 words < 300)"] },
      totalPostsAnalyzed := 40,
      postsWithQualityIssues := 0,
      pagesWithIssues := [],
      aiSuggestions := ["Fix homepage structure: Thin content (2 words < 300)"],
      score := 98,
      summary := "✅ Site appears compliant." } ∧ (98 : Int) ≠ 100 :=
  ⟨by decide, by decide⟩

/-- C8 amended: with zero violations, zero missing pages, at least 40
posts, meta description present, good headers, and additionally zero
homepage structure issues, the score is exactly 100. -/
theorem C8_amended_perfect_score (v m h p : Nat) (mt gh : Bool)
    (hv : v = 0) (hm : m = 0) (hh : h = 0) (hp : 40 ≤ p) (hmt : mt = true) (hgh : gh = true) :
    computeScore v m h p mt gh = 100 := by
  subst hv hm hh hmt hgh
  unfold computeScore
  dsimp only
  rw [if_pos (rfl : true = true), if_pos (rfl : true = true),
    if_neg (show ¬ p < 20 by omega), if_neg (show ¬ p < 40 by omega)]
  decide

/-- Witness for the amended C8. -/
theorem C8_amended_witness :
    (40 ≤ 40) ∧ computeScore 0 0 0 40 true true = 100 :=
  ⟨by decide, C8_amended_perfect_score 0 0 0 40 true true rfl rfl rfl (by decide) rfl rfl⟩

/-- C9: a fetched post whose context block is shorter than 200 characters
is skipped entirely: the accumulators come back unchanged (no duplicate
check outcome, no hash recorded, no finding) for every moderation oracle
and every rule-detection result. -/
theorem C9_short_context_skipped (fetch : String -> String)
    (extract : String -> String -> List Url) (callAI : ModOracle)
    (pageData : String -> String -> PageData)
    (ruleViolations : String -> String -> List Violation)
    (st : PostState) (p : Url)
    (hfetch : fetch p.href ≠ "")
    (hshort : (postContext (pageData (fetch p.href) p.href)).length < 200) :
    processPost ⟨fetch, extract, callAI, pageData, ruleViolations⟩ st p = st := by
  unfold processPost
  dsimp only
  rw [if_neg hfetch, if_pos hshort]

set_option maxRecDepth 1000000 in
/-- Witness for C9: the rule oracle would report a violation and the state
already holds matching content, yet the short post leaves everything
untouched. -/
theorem C9_witness :
    c9Env.fetch c9Post.href ≠ "" ∧
    (postContext (c9Env.pageData (c9Env.fetch c9Post.href) c9Post.href)).length < 200 ∧
    c9Env.ruleViolations "HTML" c9Post.href ≠ [] ∧
    processPost c9Env c9State c9Post = c9State :=
  ⟨by decide, by decide, by decide,
    C9_short_context_skipped _ _ _ _ _ c9State c9Post (by decide) (by decide)⟩

/-- C10: the required-pages verdict of a successful scan is computed from
the homepage link set alone (the crawl expansion does not appear in it),
and a required word is found iff some homepage link contains it as a
case-insensitive substring anywhere in the full URL. -/
theorem C10_required_pages_from_homepage (env : ScanEnv) (url : Url)
    (hok : env.fetch url.href ≠ "") :
    (scanReport? (scan env url)).map (fun r => r.requiredPages) =
      some (checkRequiredPages (env.extract (env.fetch url.href) url.href)) ∧
    ∀ page ∈ REQUIRED_PAGES,
      (page ∈ (checkRequiredPages (env.extract (env.fetch url.href) url.href)).found ↔
        ∃ l ∈ env.extract (env.fetch url.href) url.href,
          jsIncludes (jsToLower l.href) page = true) := by
  constructor
  · unfold scan
    dsimp only
    rw [if_neg hok]
    rfl
  · intro page hpage
    unfold checkRequiredPages
    dsimp only
    rw [List.mem_filter]
    simp [hpage, List.any_eq_true]

set_option maxRecDepth 1000000 in
/-- Witness for C10: a single homepage link `/crack-about-page` contains
`about` mid-string, so `about` is found and the other words are not. -/
theorem C10_witness :
    c10Env.fetch c8Url.href ≠ "" ∧
    ((scanReport? (scan c10Env c8Url)).map (fun r => r.requiredPages) =
      some (checkRequiredPages (c10Env.extract (c10Env.fetch c8Url.href) c8Url.href)) ∧
    ∀ page ∈ REQUIRED_PAGES,
      (page ∈ (checkRequiredPages (c10Env.extract (c10Env.fetch c8Url.href) c8Url.href)).found ↔
        ∃ l ∈ c10Env.extract (c10Env.fetch c8Url.href) c8Url.href,
          jsIncludes (jsToLower l.href) page = true)) :=
  ⟨by decide, C10_required_pages_from_homepage c10Env c8Url (by decide)⟩

end BardScan
